import Mathlib

/-!
Shallow embedding of `src/src/index.ts` (a single-shot swap script that
resolves a route, computes a slippage-bounded minimum output, conditionally
approves an ERC-20 allowance, and submits a swap user operation through a
smart-account client).

Modelling conventions:
* JavaScript numbers are IEEE-754 binary64 doubles; a double's value is a
  rational, and each arithmetic operation rounds its exact result to the
  nearest double (ties to even).  `fl : ℚ → ℚ` embeds that rounding, and
  the quote computation of line 61 is embedded with its two roundings
  (`clippedOutputFl`, `minTokenOutAmountFl`).  An exact-rational
  idealization (`clippedOutput`, `minTokenOutAmount`) is kept alongside and
  used only where the rounding provably cannot affect the property
  (monotonicity; constants such as `0.0001` whose pipeline is exact).
  `bigint` values are `ℤ` (or `ℕ` for nonnegative gas quantities);
  addresses are `ℕ` (the numeric value of the hex address, the zero address
  being `0`).
* `Number(x).toFixed(f)` produces the decimal string of the double `x`
  rounded to `f` decimal places, ties going to the larger candidate
  (ECMA-262) — the decimal rounding is applied to the double's exact
  rational value; `parseUnits(s, f)` of an `f`-place decimal string returns
  its integer numerator.  Their composition is embedded as
  `fun x => Int.floor (x * 10 ^ f + 1 / 2)`.
* Calldata built with `encodeFunctionData` is represented by its
  pre-encoding content (`CallData`), since the ABI encoder is an external
  primitive and injective on these argument lists.
* The effectful body of `main` is embedded as the list of observable actions
  it performs, in source order (`mainTrace`); the route-resolver result, the
  chain's allowance answer and the configured addresses are parameters.
  `process.exit(0)` is the final `Action.exitProcess 0` of a branch.
-/

namespace KuruSwap

/-- Line 41 of the source: the input token address (a nonzero constant). -/
def USDC : ℕ := 0x9a29e9bab1f0b599d1c6c39b60a79596b3875f56

/-- Line 42 of the source: the output token address. -/
def WIF : ℕ := 0xd9d972d687Bc511D833fe2550C456fEC1a857D2C

/-- viem's zero address, used as the native-currency sentinel (line 119). -/
def zeroAddress : ℕ := 0

/-- Line 16: `const size = 0.0001`, the human-readable input amount. -/
def size : ℚ := 1 / 10000

/-- Line 33: `const slippagePercentage = 5`. -/
def slippagePercentage : ℕ := 5

/-- Line 48: `const outTokenDecimals = 18`. -/
def outTokenDecimals : ℕ := 18

/-- Composition of JS `Number(x).toFixed(decimals)` with viem
`parseUnits(·, decimals)` under exact-rational semantics: the value is
scaled by `10 ^ decimals` and rounded to the nearest integer, ties upward
(ECMA-262 `toFixed` picks the larger of two equally close candidates). -/
def toFixedParseUnits (decimals : ℕ) (x : ℚ) : ℤ :=
  ⌊x * 10 ^ decimals + 1 / 2⌋

/-- Round to the nearest integer, ties to even — the IEEE-754 default
rounding, applied to a scaled mantissa. -/
def roundHalfEven (y : ℚ) : ℤ :=
  if Int.fract y < 1 / 2 then ⌊y⌋
  else if 1 / 2 < Int.fract y then ⌊y⌋ + 1
  else if ⌊y⌋ % 2 = 0 then ⌊y⌋ else ⌊y⌋ + 1

/-- The value of the IEEE-754 binary64 double nearest to `x`
(round-to-nearest, ties-to-even): `x` is scaled into the 53-bit mantissa
range `[2^52, 2^53)` by the power of two `Int.log 2 |x| - 52`, rounded to
an integer, and scaled back.  Overflow and subnormal underflow are not
modelled; every magnitude in this file stays far inside the normal range.
Each JS number operation rounds its exact result this way. -/
def fl (x : ℚ) : ℚ :=
  if x = 0 then 0
  else if 0 < x then
    roundHalfEven (x / 2 ^ (Int.log 2 x - 52)) * 2 ^ (Int.log 2 x - 52)
  else
    -(roundHalfEven (-x / 2 ^ (Int.log 2 (-x) - 52)) * 2 ^ (Int.log 2 (-x) - 52))

/-- Line 61 before `toFixed`, under real binary64 semantics:
`(routeOutput.output * (100 - slippagePercentage)) / 100` as JS evaluates
it — the subtraction `100 - s` is exact for the small integers involved,
while the product and the quotient each round once. -/
def clippedOutputFl (output : ℚ) (slip : ℕ) : ℚ :=
  fl (fl (output * (100 - (slip : ℚ))) / 100)

/-- Lines 61-62 under real binary64 semantics:
`parseUnits(Number(clipped).toFixed(outTokenDecimals), outTokenDecimals)`
applied to the double-valued quotient — the minimum output amount in the
output token's smallest unit, as the program computes it. -/
def minTokenOutAmountFl (output : ℚ) (slip : ℕ) : ℤ :=
  toFixedParseUnits outTokenDecimals (clippedOutputFl output slip)

/-- Line 61 before `toFixed`, under EXACT rational arithmetic: the binary64
rounding of the two operations is elided.  `clippedOutputFl` is the
faithful version; this idealization is used only where the rounding
provably cannot affect the property (the monotonicity claim: rounding a
monotone map to the nearest double is monotone). -/
def clippedOutput (output : ℚ) (slip : ℕ) : ℚ :=
  output * (100 - (slip : ℚ)) / 100

/-- Lines 61-62 under exact rational arithmetic (see `clippedOutput`);
`minTokenOutAmountFl` is the binary64-faithful version. -/
def minTokenOutAmount (output : ℚ) (slip : ℕ) : ℤ :=
  toFixedParseUnits outTokenDecimals (clippedOutput output slip)

/-- The Quote Calculator formula as the spec words it (section 4.2): floor of
`rawOutput * (100 - slippagePercent) / 100`, re-expressed in the output
token's smallest unit by decimal shifting with truncation (never rounding
up).  Kept separate from `minTokenOutAmount`, which is translated from the
source, so the two can be compared. -/
def specMinOutput (r : ℚ) (s : ℕ) : ℤ :=
  ⌊clippedOutput r s * 10 ^ 18⌋

/-- Line 65: `parseUnits(size.toFixed(18), outTokenDecimals)`. -/
def amountInWei : ℤ := toFixedParseUnits outTokenDecimals size

/-- Line 83, the value attached when the first hop is natively funded:
`parseEther(size.toFixed(18))`. -/
def parseEtherSize : ℤ := toFixedParseUnits 18 size

/-- A pool as used by the source: only its `orderbook` address is read
(line 69). -/
structure Pool where
  orderbook : ℕ
  deriving DecidableEq

/-- `routeOutput.route`: the ordered path of pools plus the route's token
endpoints (lines 69-73). -/
structure Route where
  path : List Pool
  tokenIn : ℕ
  tokenOut : ℕ
  deriving DecidableEq

/-- The result of `KuruSdk.PathFinder.findBestPath` as consumed by the
source: implied total output, the route, and the per-hop flag arrays. -/
structure RouteOutput where
  output : ℚ
  route : Route
  isBuy : List Bool
  nativeSend : List Bool
  deriving DecidableEq

/-- The argument list of the `anyToAnySwap` call (lines 68-76). -/
structure SwapArgs where
  venues : List ℕ
  isBuy : List Bool
  nativeSend : List Bool
  tokenIn : ℕ
  tokenOut : ℕ
  amountIn : ℤ
  minAmountOut : ℤ
  deriving DecidableEq

/-- Lines 68-76: the `args` array passed to `encodeFunctionData`. -/
def swapArgs (ro : RouteOutput) : SwapArgs :=
  { venues := ro.route.path.map Pool.orderbook
    isBuy := ro.isBuy
    nativeSend := ro.nativeSend
    tokenIn := ro.route.tokenIn
    tokenOut := ro.route.tokenOut
    amountIn := amountInWei
    minAmountOut := minTokenOutAmount ro.output slippagePercentage }

/-- Pre-encoding content of an inner call's `data` field. -/
inductive CallData where
  | approve (spender : ℕ) (amount : ℤ)
  | anyToAnySwap (args : SwapArgs)
  deriving DecidableEq

/-- One entry of `kernelClient.account.encodeCalls`. -/
structure Call where
  toAddr : ℕ
  value : ℤ
  data : CallData
  deriving DecidableEq

/-- Line 83: `routeOutput.nativeSend[0] ? parseEther(size.toFixed(18)) : BigInt(0)`.
An out-of-range JS index yields `undefined`, which is falsy, hence
`List.headD false`. -/
def valueAttached (nativeSend : List Bool) : ℤ :=
  if nativeSend.headD false then parseEtherSize else 0

/-- Lines 123-133: the approval call `{to: tokenIn, value: 0n, data:
approve(routerAddress, amountInWei)}`. -/
def approvalCall (tokenIn routerAddress : ℕ) : Call :=
  { toAddr := tokenIn, value := 0, data := CallData.approve routerAddress amountInWei }

/-- Lines 148-154: the swap call `{to: routerAddress, value, data}`. -/
def swapCall (routerAddress : ℕ) (ro : RouteOutput) : Call :=
  { toAddr := routerAddress
    value := valueAttached ro.nativeSend
    data := CallData.anyToAnySwap (swapArgs ro) }

/-- The gas-fee estimate shape the source dereferences
(`userOpFees?.maxPriorityFeePerGas`, `userOpFees?.maxFeePerGas`). -/
structure GasFees where
  maxPriorityFeePerGas : ℕ
  maxFeePerGas : ℕ
  deriving DecidableEq

/-- Line 144: `const userOpFees = undefined` — the estimate is hardcoded
absent (the `getGasPrice` call is commented out). -/
def userOpFees : Option GasFees := none

/-- Line 145: `const gasIncreaser = 15`. -/
def gasIncreaser : ℕ := 15

/-- Lines 155-157: `userOpFees?.maxPriorityFeePerGas ?
(BigInt(gasIncreaser) * userOpFees.maxPriorityFeePerGas) / BigInt(10) :
undefined`.  The ternary tests JS truthiness, so a present but zero
component also yields `undefined`. -/
def opMaxPriorityFeePerGas (uf : Option GasFees) : Option ℕ :=
  match uf with
  | some f =>
    if f.maxPriorityFeePerGas ≠ 0
    then some (gasIncreaser * f.maxPriorityFeePerGas / 10)
    else none
  | none => none

/-- Lines 158-160: the same escalation applied to `maxFeePerGas`. -/
def opMaxFeePerGas (uf : Option GasFees) : Option ℕ :=
  match uf with
  | some f =>
    if f.maxFeePerGas ≠ 0
    then some (gasIncreaser * f.maxFeePerGas / 10)
    else none
  | none => none

/-- The swap user operation of lines 147-161. -/
structure UserOperation where
  calls : List Call
  maxPriorityFeePerGas : Option ℕ
  maxFeePerGas : Option ℕ
  deriving DecidableEq

/-- Lines 147-161: the swap user operation built from the route and the
(hardcoded-absent) fee estimate. -/
def swapUserOperation (routerAddress : ℕ) (ro : RouteOutput) : UserOperation :=
  { calls := [swapCall routerAddress ro]
    maxPriorityFeePerGas := opMaxPriorityFeePerGas userOpFees
    maxFeePerGas := opMaxFeePerGas userOpFees }

/-- Observable effects of `main`, in source order. -/
inductive Action where
  | getAllPools
  | findBestPath
  | log (msg : String)
  | setupSmartAccount
  | readAllowance (token owner spender : ℕ)
  | sendUserOperation (calls : List Call)
  | waitForUserOperationReceipt
  | signUserOperation
  | exitProcess (code : ℕ)
  deriving DecidableEq

/-- Does the action read an ERC-20 allowance (the `getAllowance` helper,
lines 173-177)? -/
def isAllowanceRead : Action → Bool
  | Action.readAllowance _ _ _ => true
  | _ => false

/-- Does the action submit any user operation? -/
def isUserOpSend : Action → Bool
  | Action.sendUserOperation _ => true
  | _ => false

/-- Does the action submit the approval user operation? -/
def isApprovalSend : Action → Bool
  | Action.sendUserOperation (Call.mk _ _ (CallData.approve _ _) :: _) => true
  | _ => false

/-- Does the action submit the swap user operation? -/
def isSwapSend : Action → Bool
  | Action.sendUserOperation (Call.mk _ _ (CallData.anyToAnySwap _) :: _) => true
  | _ => false

/-- The body of `main` (lines 44-171) as the list of observable actions it
performs, parameterized by the configured router address, the input token
address, the smart-account address (`owner`), the route-resolver result and
the chain's answer to the allowance read.  Mirrors the source's control
flow: the zero-output abort (lines 78-81), the non-native allowance guard
(lines 119-142) with its inner `currentAllowance < amountInWei` branch, and
the final sign/submit/confirm sequence (lines 163-170). -/
def mainTrace (routerAddress tokenIn owner : ℕ) (ro : RouteOutput)
    (currentAllowance : ℤ) : List Action :=
  Action.getAllPools :: Action.findBestPath ::
    (if ro.output = 0 then
      [Action.log ("No route found"), Action.exitProcess 0]
    else
      Action.setupSmartAccount :: Action.log ("smart wallet address:") ::
        ((if zeroAddress ≠ tokenIn then
            Action.readAllowance tokenIn owner routerAddress ::
              (if currentAllowance < amountInWei then
                [Action.sendUserOperation [approvalCall tokenIn routerAddress],
                 Action.waitForUserOperationReceipt,
                 Action.log ("approval tx: ")]
              else [])
          else []) ++
         [Action.signUserOperation,
          Action.sendUserOperation [swapCall routerAddress ro],
          Action.waitForUserOperationReceipt,
          Action.log ("op tx hash:"),
          Action.exitProcess 0]))

/-- Lines 11-15: the five required configuration values, each read with an
unchecked TypeScript `as` cast. -/
structure Config where
  API : Option String
  routerAddress : Option String
  rpcUrl : Option String
  bundlerUrl : Option String
  privateKey : Option String
  deriving DecidableEq

/-- Lines 11-15: `process.env.X as T` for the five required settings.  The
`as` cast is erased at runtime and performs no check, so missing variables
flow through as absent values. -/
def loadConfig (env : String → Option String) : Config :=
  { API := env ("KURU_API")
    routerAddress := env ("KURU_ROUTER")
    rpcUrl := env ("RPC_URL")
    bundlerUrl := env ("BUNDLER_URL")
    privateKey := env ("PRIVATE_KEY") }

/-- The startup phase of the script (module-level constants, lines 11-41).
It contains no validation and no code path that throws, so it always
succeeds with the raw environment lookups. -/
def startup (env : String → Option String) : Except String Config :=
  Except.ok (loadConfig env)

/-- A concrete no-route resolver result, used by witnesses. -/
def roNoRoute : RouteOutput :=
  { output := 0
    route := { path := [], tokenIn := USDC, tokenOut := WIF }
    isBuy := []
    nativeSend := [] }

/-- A concrete two-hop resolver result with a natively funded first hop
(the spec's section-8 scenario), used by witnesses. -/
def roTwoHop : RouteOutput :=
  { output := 100
    route := { path := [Pool.mk 11, Pool.mk 22], tokenIn := USDC, tokenOut := WIF }
    isBuy := [true, false]
    nativeSend := [true, false] }

/-!  Theorems.  -/

/-- The input amount in its on-chain integer representation evaluates to
`10 ^ 14` (that is, `0.0001` scaled by `10 ^ 18`). -/
lemma amountInWei_eq : amountInWei = 10 ^ 14 := by
  unfold amountInWei toFixedParseUnits size outTokenDecimals
  norm_num

lemma amountInWei_pos : (0 : ℤ) < amountInWei := by
  rw [amountInWei_eq]; norm_num

lemma parseEtherSize_eq : parseEtherSize = 10 ^ 14 := by
  unfold parseEtherSize toFixedParseUnits size
  norm_num

/-- Unfolded form of the source's minimum-output computation (ideal form). -/
lemma minTokenOutAmount_def (r : ℚ) (s : ℕ) :
    minTokenOutAmount r s = ⌊clippedOutput r s * 10 ^ 18 + 1 / 2⌋ := rfl

lemma fl_zero : fl 0 = 0 := by
  unfold fl
  rw [if_pos rfl]

/-- `Int.log 2` is determined by a bracketing pair of powers of two. -/
lemma int_log_eq (x : ℚ) (e : ℤ) (hx : 0 < x) (h1 : (2 : ℚ) ^ e ≤ x)
    (h2 : x < (2 : ℚ) ^ (e + 1)) : Int.log 2 x = e := by
  have ha : e ≤ Int.log 2 x := by
    rw [← Int.zpow_le_iff_le_log (by norm_num) hx]
    exact_mod_cast h1
  have hb : Int.log 2 x < e + 1 := by
    rw [← Int.lt_zpow_iff_log_lt (by norm_num) hx]
    exact_mod_cast h2
  omega

/-- Evaluate `fl` once the binade of its argument is known. -/
lemma fl_eq_round (x : ℚ) (e : ℤ) (hx : 0 < x) (h1 : (2 : ℚ) ^ e ≤ x)
    (h2 : x < (2 : ℚ) ^ (e + 1)) :
    fl x = roundHalfEven (x / 2 ^ (e - 52)) * 2 ^ (e - 52) := by
  unfold fl
  rw [if_neg (ne_of_gt hx), if_pos hx, int_log_eq x e hx h1 h2]

lemma roundHalfEven_intCast (n : ℤ) : roundHalfEven (n : ℚ) = n := by
  unfold roundHalfEven
  rw [Int.fract_intCast]
  norm_num

/-- A positive value whose 53-bit mantissa is an integer is a double:
`fl` leaves it unchanged. -/
lemma fl_eq_self (x : ℚ) (e : ℤ) (n : ℤ) (hx : 0 < x) (h1 : (2 : ℚ) ^ e ≤ x)
    (h2 : x < (2 : ℚ) ^ (e + 1)) (hn : x = (n : ℚ) * 2 ^ (e - 52)) : fl x = x := by
  have hz : ((2 : ℚ) ^ (e - 52) : ℚ) ≠ 0 := zpow_ne_zero _ two_ne_zero
  rw [fl_eq_round x e hx h1 h2]
  rw [show x / 2 ^ (e - 52) = (n : ℚ) by rw [hn, mul_div_cancel_right₀ _ hz]]
  rw [roundHalfEven_intCast, ← hn]

lemma fl_1 : fl 1 = 1 :=
  fl_eq_self 1 0 (2 ^ 52) (by norm_num) (by norm_num) (by norm_num) (by norm_num)

lemma fl_2 : fl 2 = 2 :=
  fl_eq_self 2 1 (2 ^ 52) (by norm_num) (by norm_num) (by norm_num) (by norm_num)

lemma fl_half : fl (1 / 2) = 1 / 2 :=
  fl_eq_self (1 / 2) (-1) (2 ^ 52) (by norm_num) (by norm_num) (by norm_num) (by norm_num)

lemma fl_50 : fl 50 = 50 :=
  fl_eq_self 50 5 (50 * 2 ^ 47) (by norm_num) (by norm_num) (by norm_num) (by norm_num)

lemma fl_95 : fl 95 = 95 :=
  fl_eq_self 95 6 (95 * 2 ^ 46) (by norm_num) (by norm_num) (by norm_num) (by norm_num)

lemma fl_100 : fl 100 = 100 :=
  fl_eq_self 100 6 (100 * 2 ^ 46) (by norm_num) (by norm_num) (by norm_num) (by norm_num)

lemma fl_200 : fl 200 = 200 :=
  fl_eq_self 200 7 (200 * 2 ^ 45) (by norm_num) (by norm_num) (by norm_num) (by norm_num)

lemma fl_9500 : fl 9500 = 9500 :=
  fl_eq_self 9500 13 (9500 * 2 ^ 39) (by norm_num) (by norm_num) (by norm_num) (by norm_num)

lemma fl_95_shift : fl (95 / 2 ^ 60) = 95 / 2 ^ 60 :=
  fl_eq_self (95 / 2 ^ 60) (-54) (95 * 2 ^ 46) (by norm_num) (by norm_num) (by norm_num)
    (by norm_num)

lemma fl_100_shift : fl (100 / 2 ^ 60) = 100 / 2 ^ 60 :=
  fl_eq_self (100 / 2 ^ 60) (-54) (25 * 2 ^ 48) (by norm_num) (by norm_num) (by norm_num)
    (by norm_num)

lemma fl_pow60 : fl (1 / 2 ^ 60) = 1 / 2 ^ 60 :=
  fl_eq_self (1 / 2 ^ 60) (-60) (2 ^ 52) (by norm_num) (by norm_num) (by norm_num)
    (by norm_num)

/-- `95/100` is not a double: its nearest double sits `0.444… * 2⁻⁵³` BELOW
`0.95` (`fl(0.95) = 0.94999999999999995559…`). -/
lemma fl_19_20 : fl (19 / 20) = 8556839292003942 / 2 ^ 53 := by
  rw [fl_eq_round (19 / 20) (-1) (by norm_num) (by norm_num) (by norm_num)]
  rw [show ((19 : ℚ) / 20) / 2 ^ ((-1 : ℤ) - 52) = 171136785840078848 / 20 by
    norm_num]
  rw [show roundHalfEven (171136785840078848 / 20) = 8556839292003942 by
    unfold roundHalfEven
    norm_num [Int.fract]]
  norm_num

/-- The same mantissa one binade lower: `fl(0.95 * 2⁻⁶⁰)`. -/
lemma fl_19_20_shift : fl (19 / (20 * 2 ^ 60)) = 8556839292003942 / 2 ^ 113 := by
  rw [fl_eq_round _ (-61) (by norm_num) (by norm_num) (by norm_num)]
  rw [show ((19 : ℚ) / (20 * 2 ^ 60)) / 2 ^ ((-61 : ℤ) - 52) = 171136785840078848 / 20 by
    norm_num]
  rw [show roundHalfEven (171136785840078848 / 20) = 8556839292003942 by
    unfold roundHalfEven
    norm_num [Int.fract]]
  norm_num

/-- Multiplying the 53-bit double `6807678383186224 * 2⁻¹⁸` by 100 lands
exactly between two doubles; ties-to-even rounds the odd mantissa
`…237.5` UP to `…238`. -/
lemma fl_whole_mul_100 :
    fl (6807678383186224 * 100 / 2 ^ 18) = 5318498736864238 / 2 ^ 11 := by
  rw [fl_eq_round _ 41 (by norm_num) (by norm_num) (by norm_num)]
  rw [show (6807678383186224 * 100 / 2 ^ 18 : ℚ) / 2 ^ ((41 : ℤ) - 52) =
      10636997473728475 / 2 by norm_num]
  rw [show roundHalfEven (10636997473728475 / 2) = 5318498736864238 by
    unfold roundHalfEven
    norm_num [Int.fract]]
  norm_num

/-- Dividing the rounded product back by 100 rounds up once more: the
`x * 100 / 100` round trip returns `x + 2⁻¹⁸`, one unit in the last place
above the original double. -/
lemma fl_whole_div_100 :
    fl (5318498736864238 / 2 ^ 11 / 100) = 6807678383186225 / 2 ^ 18 := by
  rw [fl_eq_round _ 34 (by norm_num) (by norm_num) (by norm_num)]
  rw [show (5318498736864238 / 2 ^ 11 / 100 : ℚ) / 2 ^ ((34 : ℤ) - 52) =
      170191959579655616 / 25 by norm_num]
  rw [show roundHalfEven (170191959579655616 / 25) = 6807678383186225 by
    unfold roundHalfEven
    norm_num [Int.fract]]
  norm_num

/-- When line 61's two binary64 roundings are exact, the faithful
computation coincides with the exact-rational idealization. -/
lemma minTokenOutAmountFl_eq_ideal (r : ℚ) (s : ℕ)
    (h1 : fl (r * (100 - (s : ℚ))) = r * (100 - (s : ℚ)))
    (h2 : fl (r * (100 - (s : ℚ)) / 100) = r * (100 - (s : ℚ)) / 100) :
    minTokenOutAmountFl r s = minTokenOutAmount r s := by
  unfold minTokenOutAmountFl minTokenOutAmount clippedOutputFl clippedOutput
  rw [h1, h2]

/-- C1 (amended): the minimum output is the binary64 value of the slippage
product rounded by `toFixed` to the NEAREST smallest unit (ties up), not
the spec's floor/truncation.  Whenever the two binary64 roundings of line
61 are exact, it lies between the spec's floor and that floor plus one
smallest unit and coincides with the floor exactly when the scaled value is
integral; the spec's own example (r = 100, s = 5, all intermediates
representable) yields exactly `95 * 10 ^ 18`.  With inexact intermediates
the result also drifts below the floor (see the counterexample). -/
theorem minOutput_rounds_half_up (r : ℚ) (s : ℕ)
    (h1 : fl (r * (100 - (s : ℚ))) = r * (100 - (s : ℚ)))
    (h2 : fl (r * (100 - (s : ℚ)) / 100) = r * (100 - (s : ℚ)) / 100) :
    specMinOutput r s ≤ minTokenOutAmountFl r s ∧
    minTokenOutAmountFl r s ≤ specMinOutput r s + 1 ∧
    ((∃ n : ℤ, clippedOutput r s * 10 ^ 18 = (n : ℚ)) →
      minTokenOutAmountFl r s = specMinOutput r s) ∧
    minTokenOutAmountFl 100 5 = 95 * 10 ^ 18 := by
  have hm := minTokenOutAmountFl_eq_ideal r s h1 h2
  refine ⟨?_, ?_, ?_, ?_⟩
  · rw [hm, minTokenOutAmount_def]
    exact Int.floor_mono (by linarith)
  · rw [hm, minTokenOutAmount_def]
    unfold specMinOutput
    rw [show ⌊clippedOutput r s * 10 ^ 18⌋ + 1 = ⌊clippedOutput r s * 10 ^ 18 + 1⌋ by
      rw [Int.floor_add_one]]
    exact Int.floor_mono (by linarith)
  · rintro ⟨n, hn⟩
    rw [hm, minTokenOutAmount_def]
    unfold specMinOutput
    rw [hn, Int.floor_int_add, Int.floor_intCast]
    norm_num
  · have hc : clippedOutputFl 100 5 = 95 := by
      unfold clippedOutputFl
      rw [show ((100 : ℚ) * (100 - ((5 : ℕ) : ℚ))) = 9500 by norm_num, fl_9500]
      rw [show ((9500 : ℚ) / 100) = 95 by norm_num, fl_95]
    unfold minTokenOutAmountFl
    rw [hc]
    unfold toFixedParseUnits outTokenDecimals
    norm_num

/-- Witness for `minOutput_rounds_half_up` at `r = 1/2`, `s = 0`: both
intermediates (`50` and `0.5`) are exactly representable doubles, so the
hypotheses hold and the code agrees with the spec formula there. -/
theorem minOutput_rounds_half_up_witness :
    specMinOutput (1 / 2) 0 ≤ minTokenOutAmountFl (1 / 2) 0 ∧
    minTokenOutAmountFl (1 / 2) 0 ≤ specMinOutput (1 / 2) 0 + 1 ∧
    ((∃ n : ℤ, clippedOutput (1 / 2) 0 * 10 ^ 18 = (n : ℚ)) →
      minTokenOutAmountFl (1 / 2) 0 = specMinOutput (1 / 2) 0) ∧
    minTokenOutAmountFl 100 5 = 95 * 10 ^ 18 :=
  minOutput_rounds_half_up (1 / 2) 0
    (by rw [show ((1 : ℚ) / 2) * (100 - ((0 : ℕ) : ℚ)) = 50 by norm_num]
        exact fl_50)
    (by rw [show ((1 : ℚ) / 2) * (100 - ((0 : ℕ) : ℚ)) / 100 = 1 / 2 by norm_num]
        exact fl_half)

/-- C1 counterexample, both divergence directions at genuine doubles with
the configured 5% slippage.  At raw output `1` the program computes
`949999999999999956` — binary64 rounds `95/100` DOWN, 44 smallest units
below the spec's floor `95 * 10 ^ 16`.  At raw output `2⁻⁶⁰` it computes
`1` — `toFixed` rounds `0.95 * 2⁻⁶⁰ ≈ 0.824` smallest units UP — while the
floor is `0`.  So the computed minimum output is neither `floor(r * (100 -
s) / 100)` truncated to the token's precision nor exact-integer
arithmetic. -/
theorem minOutput_not_floor_cex :
    minTokenOutAmountFl 1 5 = 949999999999999956 ∧
    specMinOutput 1 5 = 950000000000000000 ∧
    minTokenOutAmountFl 1 5 < specMinOutput 1 5 ∧
    minTokenOutAmountFl (1 / 2 ^ 60) 5 = 1 ∧
    specMinOutput (1 / 2 ^ 60) 5 = 0 := by
  have hc1 : clippedOutputFl 1 5 = 8556839292003942 / 2 ^ 53 := by
    unfold clippedOutputFl
    rw [show ((1 : ℚ) * (100 - ((5 : ℕ) : ℚ))) = 95 by norm_num, fl_95]
    rw [show ((95 : ℚ) / 100) = 19 / 20 by norm_num, fl_19_20]
  have h1 : minTokenOutAmountFl 1 5 = 949999999999999956 := by
    unfold minTokenOutAmountFl
    rw [hc1]
    unfold toFixedParseUnits outTokenDecimals
    norm_num
  have h2 : specMinOutput 1 5 = 950000000000000000 := by
    unfold specMinOutput clippedOutput
    norm_num
  have hc2 : clippedOutputFl (1 / 2 ^ 60) 5 = 8556839292003942 / 2 ^ 113 := by
    unfold clippedOutputFl
    rw [show ((1 / 2 ^ 60 : ℚ) * (100 - ((5 : ℕ) : ℚ))) = 95 / 2 ^ 60 by norm_num,
      fl_95_shift]
    rw [show ((95 / 2 ^ 60 : ℚ) / 100) = 19 / (20 * 2 ^ 60) by norm_num, fl_19_20_shift]
  have h4 : minTokenOutAmountFl (1 / 2 ^ 60) 5 = 1 := by
    unfold minTokenOutAmountFl
    rw [hc2]
    unfold toFixedParseUnits outTokenDecimals
    norm_num
  have h5 : specMinOutput (1 / 2 ^ 60) 5 = 0 := by
    unfold specMinOutput clippedOutput
    norm_num
  exact ⟨h1, h2, by rw [h1, h2]; norm_num, h4, h5⟩

/-- C5 (amended): `minOutput(x, 100) = 0` holds for EVERY raw output `x`
(the slippage product is exactly zero in binary64 too); the other two
properties — `minOutput(r, s) ≤ r` in matching units and
`minOutput(r, 0) = r` — hold when the raw output is a whole number of
smallest units AND the binary64 intermediates of line 61 evaluate exactly.
Without those conditions they fail on genuine doubles (see the
counterexample). -/
theorem minOutput_bounds_on_whole_units (r : ℚ) (s : ℕ) (hr : 0 ≤ r)
    (hwhole : ∃ n : ℤ, r * 10 ^ 18 = (n : ℚ))
    (h1 : fl (r * (100 - (s : ℚ))) = r * (100 - (s : ℚ)))
    (h2 : fl (r * (100 - (s : ℚ)) / 100) = r * (100 - (s : ℚ)) / 100)
    (h3 : fl (r * 100) = r * 100) (hfr : fl r = r) :
    (minTokenOutAmountFl r s : ℚ) ≤ r * 10 ^ 18 ∧
    (minTokenOutAmountFl r 0 : ℚ) = r * 10 ^ 18 ∧
    (∀ x : ℚ, minTokenOutAmountFl x 100 = 0) := by
  obtain ⟨n, hn⟩ := hwhole
  have hm := minTokenOutAmountFl_eq_ideal r s h1 h2
  have hsq : (0 : ℚ) ≤ (s : ℚ) := Nat.cast_nonneg s
  have harg : clippedOutput r s * 10 ^ 18 ≤ r * 10 ^ 18 := by
    unfold clippedOutput
    have hprod : 0 ≤ r * (s : ℚ) := mul_nonneg hr hsq
    nlinarith
  refine ⟨?_, ?_, ?_⟩
  · rw [hm, minTokenOutAmount_def]
    have hlt : clippedOutput r s * 10 ^ 18 + 1 / 2 < ((n + 1 : ℤ) : ℚ) := by
      push_cast
      rw [hn] at harg
      linarith
    have hfl : ⌊clippedOutput r s * 10 ^ 18 + 1 / 2⌋ < n + 1 := Int.floor_lt.mpr hlt
    have hle : ⌊clippedOutput r s * 10 ^ 18 + 1 / 2⌋ ≤ n := Int.lt_add_one_iff.mp hfl
    calc (⌊clippedOutput r s * 10 ^ 18 + 1 / 2⌋ : ℚ) ≤ (n : ℚ) := by exact_mod_cast hle
      _ = r * 10 ^ 18 := hn.symm
  · have hm0 : minTokenOutAmountFl r 0 = toFixedParseUnits 18 r := by
      unfold minTokenOutAmountFl clippedOutputFl
      rw [show (r * (100 - ((0 : ℕ) : ℚ))) = r * 100 by norm_num, h3]
      rw [show (r * 100 / 100 : ℚ) = r by ring, hfr]
      rfl
    rw [hm0]
    unfold toFixedParseUnits
    rw [hn, Int.floor_int_add]
    norm_num
  · intro x
    unfold minTokenOutAmountFl clippedOutputFl
    rw [show (x * (100 - ((100 : ℕ) : ℚ))) = 0 by norm_num, fl_zero]
    rw [show ((0 : ℚ) / 100) = 0 by norm_num, fl_zero]
    unfold toFixedParseUnits outTokenDecimals
    norm_num

/-- Witness for `minOutput_bounds_on_whole_units` at `r = 2`, `s = 50`:
every intermediate (`100`, `1`, `200`, `2`) is an exactly representable
double, so all hypotheses hold. -/
theorem minOutput_bounds_witness :
    (minTokenOutAmountFl 2 50 : ℚ) ≤ 2 * 10 ^ 18 ∧
    (minTokenOutAmountFl 2 0 : ℚ) = 2 * 10 ^ 18 ∧
    (∀ x : ℚ, minTokenOutAmountFl x 100 = 0) :=
  minOutput_bounds_on_whole_units 2 50 zero_le_two ⟨2 * 10 ^ 18, by norm_num⟩
    (by rw [show ((2 : ℚ) * (100 - ((50 : ℕ) : ℚ))) = 100 by norm_num]
        exact fl_100)
    (by rw [show ((2 : ℚ) * (100 - ((50 : ℕ) : ℚ)) / 100) = 1 by norm_num]
        exact fl_1)
    (by rw [show ((2 : ℚ) * 100) = 200 by norm_num]
        exact fl_200)
    fl_2

/-- C5 counterexample at genuine doubles and zero slippage.  At raw output
`2⁻⁶⁰` (0.867 smallest units) `toFixed` rounds up to `1`, exceeding the raw
output in matching units.  At the reviewer-scale raw output
`6807678383186224 * 2⁻¹⁸ ≈ 2.597e10` — exactly representable, a WHOLE
number of smallest units — the binary64 `* 100 / 100` round trip of line 61
lands one ulp high, so the program returns `r + 3814697265625` smallest
units: `minOutput(r, 0) = r` and `minOutput(r, s) ≤ r` fail even on the
whole-unit domain. -/
theorem minOutput_exceeds_raw_cex :
    minTokenOutAmountFl (1 / 2 ^ 60) 0 = 1 ∧
    ¬ ((minTokenOutAmountFl (1 / 2 ^ 60) 0 : ℚ) ≤ (1 / 2 ^ 60 : ℚ) * 10 ^ 18) ∧
    (∃ n : ℤ, (6807678383186224 / 2 ^ 18 : ℚ) * 10 ^ 18 = (n : ℚ)) ∧
    minTokenOutAmountFl (6807678383186224 / 2 ^ 18) 0 =
      25969232113594913482666015625 ∧
    ¬ ((minTokenOutAmountFl (6807678383186224 / 2 ^ 18) 0 : ℚ) ≤
        (6807678383186224 / 2 ^ 18 : ℚ) * 10 ^ 18) := by
  have hc1 : clippedOutputFl (1 / 2 ^ 60) 0 = 1 / 2 ^ 60 := by
    unfold clippedOutputFl
    rw [show ((1 / 2 ^ 60 : ℚ) * (100 - ((0 : ℕ) : ℚ))) = 100 / 2 ^ 60 by norm_num,
      fl_100_shift]
    rw [show ((100 / 2 ^ 60 : ℚ) / 100) = 1 / 2 ^ 60 by norm_num, fl_pow60]
  have h1 : minTokenOutAmountFl (1 / 2 ^ 60) 0 = 1 := by
    unfold minTokenOutAmountFl
    rw [hc1]
    unfold toFixedParseUnits outTokenDecimals
    norm_num
  have hc2 : clippedOutputFl (6807678383186224 / 2 ^ 18) 0 =
      6807678383186225 / 2 ^ 18 := by
    unfold clippedOutputFl
    rw [show ((6807678383186224 / 2 ^ 18 : ℚ) * (100 - ((0 : ℕ) : ℚ))) =
        6807678383186224 * 100 / 2 ^ 18 by norm_num, fl_whole_mul_100]
    exact fl_whole_div_100
  have h4 : minTokenOutAmountFl (6807678383186224 / 2 ^ 18) 0 =
      25969232113594913482666015625 := by
    unfold minTokenOutAmountFl
    rw [hc2]
    unfold toFixedParseUnits outTokenDecimals
    norm_num
  refine ⟨h1, ?_, ⟨6807678383186224 * 3814697265625, by norm_num⟩, h4, ?_⟩
  · rw [h1]
    norm_num
  · rw [h4]
    norm_num

/-- C6: the quote is monotone non-decreasing in the raw output for a fixed
slippage percentage in [0, 100], and monotone non-increasing in the
slippage percentage for a fixed nonnegative raw output. -/
theorem minOutput_monotone (r r1 r2 : ℚ) (s s1 s2 : ℕ)
    (hs : s ≤ 100) (h12 : r1 ≤ r2) (hr : 0 ≤ r) (hss : s1 ≤ s2) :
    minTokenOutAmount r1 s ≤ minTokenOutAmount r2 s ∧
    minTokenOutAmount r s2 ≤ minTokenOutAmount r s1 := by
  constructor
  · rw [minTokenOutAmount_def, minTokenOutAmount_def]
    apply Int.floor_mono
    have hsq : (s : ℚ) ≤ 100 := by exact_mod_cast hs
    have h100 : (0 : ℚ) ≤ 100 - (s : ℚ) := by linarith
    have hprod : 0 ≤ (r2 - r1) * (100 - (s : ℚ)) :=
      mul_nonneg (sub_nonneg.mpr h12) h100
    unfold clippedOutput
    nlinarith
  · rw [minTokenOutAmount_def, minTokenOutAmount_def]
    apply Int.floor_mono
    have hssq : (s1 : ℚ) ≤ (s2 : ℚ) := by exact_mod_cast hss
    have hprod : 0 ≤ r * ((s2 : ℚ) - (s1 : ℚ)) :=
      mul_nonneg hr (sub_nonneg.mpr hssq)
    unfold clippedOutput
    nlinarith

/-- Witness for `minOutput_monotone` at `r1 = 0 ≤ r2 = 1`, `s = 5`,
`s1 = 5 ≤ s2 = 7`, `r = 1`. -/
theorem minOutput_monotone_witness :
    minTokenOutAmount 0 5 ≤ minTokenOutAmount 1 5 ∧
    minTokenOutAmount 1 7 ≤ minTokenOutAmount 1 5 :=
  minOutput_monotone 1 0 1 5 5 7 (by decide) zero_le_one zero_le_one (by decide)

lemma roTwoHop_output_ne_zero : roTwoHop.output ≠ 0 := by
  simp [roTwoHop]

lemma USDC_ne_zero : USDC ≠ 0 := by decide

/-- C2: when the resolver reports zero output, the orchestrator performs no
allowance read, submits no user operation of any kind (neither approval nor
swap), logs "No route found", and terminates with success exit code 0. -/
theorem zero_output_aborts_cleanly (routerAddress tokenIn owner : ℕ)
    (ro : RouteOutput) (al : ℤ) (h : ro.output = 0) :
    mainTrace routerAddress tokenIn owner ro al =
      [Action.getAllPools, Action.findBestPath, Action.log ("No route found"),
       Action.exitProcess 0] ∧
    (mainTrace routerAddress tokenIn owner ro al).countP isAllowanceRead = 0 ∧
    (mainTrace routerAddress tokenIn owner ro al).countP isUserOpSend = 0 ∧
    Action.log ("No route found") ∈ mainTrace routerAddress tokenIn owner ro al ∧
    (mainTrace routerAddress tokenIn owner ro al).getLast? =
      some (Action.exitProcess 0) := by
  have ht : mainTrace routerAddress tokenIn owner ro al =
      [Action.getAllPools, Action.findBestPath, Action.log ("No route found"),
       Action.exitProcess 0] := by
    unfold mainTrace
    rw [if_pos h]
  rw [ht]
  exact ⟨rfl, by decide, by decide, by decide, by decide⟩

/-- Witness for `zero_output_aborts_cleanly` on the concrete no-route
resolver result. -/
theorem zero_output_aborts_cleanly_witness :
    mainTrace 1 USDC 3 roNoRoute 0 =
      [Action.getAllPools, Action.findBestPath, Action.log ("No route found"),
       Action.exitProcess 0] ∧
    (mainTrace 1 USDC 3 roNoRoute 0).countP isAllowanceRead = 0 ∧
    (mainTrace 1 USDC 3 roNoRoute 0).countP isUserOpSend = 0 ∧
    Action.log ("No route found") ∈ mainTrace 1 USDC 3 roNoRoute 0 ∧
    (mainTrace 1 USDC 3 roNoRoute 0).getLast? = some (Action.exitProcess 0) :=
  zero_output_aborts_cleanly 1 USDC 3 roNoRoute 0 rfl

/-- C3: with a non-native input token and a viable route, an allowance at
least the required amount (including exactly equal) produces zero approval
submissions and exactly one swap submission, while an insufficient
allowance produces exactly one approval submission whose receipt is awaited
strictly before the swap user operation is submitted. -/
theorem approval_once_before_swap (routerAddress tokenIn owner : ℕ)
    (ro : RouteOutput) (alHigh alLow : ℤ)
    (hIn : tokenIn ≠ 0) (hOut : ro.output ≠ 0)
    (hge : amountInWei ≤ alHigh) (hlt : alLow < amountInWei) :
    (mainTrace routerAddress tokenIn owner ro alHigh).countP isApprovalSend = 0 ∧
    (mainTrace routerAddress tokenIn owner ro alHigh).countP isSwapSend = 1 ∧
    (mainTrace routerAddress tokenIn owner ro alLow).countP isApprovalSend = 1 ∧
    (∃ l1 l2,
      mainTrace routerAddress tokenIn owner ro alLow =
        l1 ++ Action.sendUserOperation [approvalCall tokenIn routerAddress] ::
          Action.waitForUserOperationReceipt :: l2 ∧
      (∀ a ∈ l1, isSwapSend a = false) ∧
      Action.sendUserOperation [swapCall routerAddress ro] ∈ l2) := by
  have h0 : zeroAddress ≠ tokenIn := by
    unfold zeroAddress
    exact fun hh => hIn hh.symm
  have htHigh : mainTrace routerAddress tokenIn owner ro alHigh =
      [Action.getAllPools, Action.findBestPath, Action.setupSmartAccount,
       Action.log ("smart wallet address:"),
       Action.readAllowance tokenIn owner routerAddress,
       Action.signUserOperation,
       Action.sendUserOperation [swapCall routerAddress ro],
       Action.waitForUserOperationReceipt,
       Action.log ("op tx hash:"), Action.exitProcess 0] := by
    unfold mainTrace
    rw [if_neg hOut, if_pos h0, if_neg (not_lt.mpr hge)]
    rfl
  have htLow : mainTrace routerAddress tokenIn owner ro alLow =
      [Action.getAllPools, Action.findBestPath, Action.setupSmartAccount,
       Action.log ("smart wallet address:"),
       Action.readAllowance tokenIn owner routerAddress,
       Action.sendUserOperation [approvalCall tokenIn routerAddress],
       Action.waitForUserOperationReceipt,
       Action.log ("approval tx: "),
       Action.signUserOperation,
       Action.sendUserOperation [swapCall routerAddress ro],
       Action.waitForUserOperationReceipt,
       Action.log ("op tx hash:"), Action.exitProcess 0] := by
    unfold mainTrace
    rw [if_neg hOut, if_pos h0, if_pos hlt]
    rfl
  refine ⟨?_, ?_, ?_, ?_⟩
  · rw [htHigh]
    simp [List.countP_cons, isApprovalSend, approvalCall, swapCall]
  · rw [htHigh]
    simp [List.countP_cons, isApprovalSend, isSwapSend, approvalCall, swapCall]
  · rw [htLow]
    simp [List.countP_cons, isApprovalSend, approvalCall, swapCall]
  · refine ⟨[Action.getAllPools, Action.findBestPath, Action.setupSmartAccount,
       Action.log ("smart wallet address:"),
       Action.readAllowance tokenIn owner routerAddress],
      [Action.log ("approval tx: "), Action.signUserOperation,
       Action.sendUserOperation [swapCall routerAddress ro],
       Action.waitForUserOperationReceipt,
       Action.log ("op tx hash:"), Action.exitProcess 0], ?_, ?_, ?_⟩
    · rw [htLow]
      rfl
    · intro a ha
      fin_cases ha <;> rfl
    · simp

/-- Witness for `approval_once_before_swap` on the concrete two-hop route,
an allowance exactly equal to the required amount, and a zero allowance. -/
theorem approval_once_before_swap_witness :
    (mainTrace 1 USDC 3 roTwoHop amountInWei).countP isApprovalSend = 0 ∧
    (mainTrace 1 USDC 3 roTwoHop amountInWei).countP isSwapSend = 1 ∧
    (mainTrace 1 USDC 3 roTwoHop 0).countP isApprovalSend = 1 ∧
    (∃ l1 l2,
      mainTrace 1 USDC 3 roTwoHop 0 =
        l1 ++ Action.sendUserOperation [approvalCall USDC 1] ::
          Action.waitForUserOperationReceipt :: l2 ∧
      (∀ a ∈ l1, isSwapSend a = false) ∧
      Action.sendUserOperation [swapCall 1 roTwoHop] ∈ l2) :=
  approval_once_before_swap 1 USDC 3 roTwoHop amountInWei 0
    USDC_ne_zero roTwoHop_output_ne_zero (le_refl amountInWei) amountInWei_pos

/-- C4: the swap calldata's input amount, the value the allowance is
compared against, and the amount granted by the approval are all the single
value `parseUnits(size.toFixed(18), outTokenDecimals)` with
`outTokenDecimals = 18` — that is `10 ^ 14` — which differs from the amount
scaled by a 6-decimal input token's own precision (`100`) and is never the
unlimited-allowance sentinel `2 ^ 256 - 1`; an approval is submitted
exactly when the fresh allowance is below this value. -/
theorem amountIn_single_scaled_value (routerAddress tokenIn owner : ℕ)
    (ro : RouteOutput) (al : ℤ) (hIn : tokenIn ≠ 0) (hOut : ro.output ≠ 0) :
    (swapArgs ro).amountIn = amountInWei ∧
    (approvalCall tokenIn routerAddress).data =
      CallData.approve routerAddress amountInWei ∧
    amountInWei = toFixedParseUnits 18 size ∧
    amountInWei = 10 ^ 14 ∧
    toFixedParseUnits 6 size = 100 ∧
    amountInWei ≠ toFixedParseUnits 6 size ∧
    amountInWei ≠ 2 ^ 256 - 1 ∧
    (mainTrace routerAddress tokenIn owner ro al).countP isApprovalSend =
      (if al < amountInWei then 1 else 0) := by
  have h6 : toFixedParseUnits 6 size = 100 := by
    unfold toFixedParseUnits size
    norm_num
  have h0 : zeroAddress ≠ tokenIn := by
    unfold zeroAddress
    exact fun hh => hIn hh.symm
  refine ⟨rfl, rfl, rfl, amountInWei_eq, h6, ?_, ?_, ?_⟩
  · rw [amountInWei_eq, h6]
    norm_num
  · rw [amountInWei_eq]
    norm_num
  · by_cases hal : al < amountInWei
    · rw [if_pos hal]
      have ht : mainTrace routerAddress tokenIn owner ro al =
          [Action.getAllPools, Action.findBestPath, Action.setupSmartAccount,
           Action.log ("smart wallet address:"),
           Action.readAllowance tokenIn owner routerAddress,
           Action.sendUserOperation [approvalCall tokenIn routerAddress],
           Action.waitForUserOperationReceipt,
           Action.log ("approval tx: "),
           Action.signUserOperation,
           Action.sendUserOperation [swapCall routerAddress ro],
           Action.waitForUserOperationReceipt,
           Action.log ("op tx hash:"), Action.exitProcess 0] := by
        unfold mainTrace
        rw [if_neg hOut, if_pos h0, if_pos hal]
        rfl
      rw [ht]
      simp [List.countP_cons, isApprovalSend, approvalCall, swapCall]
    · rw [if_neg hal]
      have ht : mainTrace routerAddress tokenIn owner ro al =
          [Action.getAllPools, Action.findBestPath, Action.setupSmartAccount,
           Action.log ("smart wallet address:"),
           Action.readAllowance tokenIn owner routerAddress,
           Action.signUserOperation,
           Action.sendUserOperation [swapCall routerAddress ro],
           Action.waitForUserOperationReceipt,
           Action.log ("op tx hash:"), Action.exitProcess 0] := by
        unfold mainTrace
        rw [if_neg hOut, if_pos h0, if_neg hal]
        rfl
      rw [ht]
      simp [List.countP_cons, isApprovalSend, approvalCall, swapCall]

/-- Witness for `amountIn_single_scaled_value` on the concrete two-hop
route with a zero allowance. -/
theorem amountIn_single_scaled_value_witness :
    (swapArgs roTwoHop).amountIn = amountInWei ∧
    (approvalCall USDC 1).data = CallData.approve 1 amountInWei ∧
    amountInWei = toFixedParseUnits 18 size ∧
    amountInWei = 10 ^ 14 ∧
    toFixedParseUnits 6 size = 100 ∧
    amountInWei ≠ toFixedParseUnits 6 size ∧
    amountInWei ≠ 2 ^ 256 - 1 ∧
    (mainTrace 1 USDC 3 roTwoHop 0).countP isApprovalSend =
      (if (0 : ℤ) < amountInWei then 1 else 0) :=
  amountIn_single_scaled_value 1 USDC 3 roTwoHop 0
    USDC_ne_zero roTwoHop_output_ne_zero

/-- C7: the native value attached to the swap call is nonzero exactly when
the first hop's `nativeSend` flag is true, in which case it is the
native-currency equivalent of the input amount (`size * 10 ^ 18`), and the
encoded venue / isBuy / nativeSend arrays are exactly the route's per-hop
data. -/
theorem swap_value_iff_first_hop_native (routerAddress : ℕ) (ro : RouteOutput) :
    (swapUserOperation routerAddress ro).calls = [swapCall routerAddress ro] ∧
    ((swapCall routerAddress ro).value ≠ 0 ↔ ro.nativeSend.headD false = true) ∧
    (ro.nativeSend.headD false = true →
      ((swapCall routerAddress ro).value : ℚ) = size * 10 ^ 18) ∧
    (ro.nativeSend.headD false = false → (swapCall routerAddress ro).value = 0) ∧
    (swapArgs ro).venues = ro.route.path.map Pool.orderbook ∧
    (swapArgs ro).isBuy = ro.isBuy ∧
    (swapArgs ro).nativeSend = ro.nativeSend := by
  have hv : (swapCall routerAddress ro).value =
      (if ro.nativeSend.headD false then parseEtherSize else 0) := rfl
  refine ⟨rfl, ?_, ?_, ?_, rfl, rfl, rfl⟩
  · rw [hv]
    cases h : ro.nativeSend.headD false
    · norm_num
    · norm_num [parseEtherSize_eq]
  · intro hhead
    rw [hv, hhead]
    norm_num [parseEtherSize_eq]
    unfold size
    norm_num
  · intro hhead
    rw [hv, hhead]
    norm_num

/-- Witness for `swap_value_iff_first_hop_native` on the concrete two-hop
route whose first hop is natively funded. -/
theorem swap_value_iff_first_hop_native_witness :
    (swapUserOperation 1 roTwoHop).calls = [swapCall 1 roTwoHop] ∧
    ((swapCall 1 roTwoHop).value ≠ 0 ↔ roTwoHop.nativeSend.headD false = true) ∧
    (roTwoHop.nativeSend.headD false = true →
      ((swapCall 1 roTwoHop).value : ℚ) = size * 10 ^ 18) ∧
    (roTwoHop.nativeSend.headD false = false → (swapCall 1 roTwoHop).value = 0) ∧
    (swapArgs roTwoHop).venues = roTwoHop.route.path.map Pool.orderbook ∧
    (swapArgs roTwoHop).isBuy = roTwoHop.isBuy ∧
    (swapArgs roTwoHop).nativeSend = roTwoHop.nativeSend :=
  swap_value_iff_first_hop_native 1 roTwoHop

/-- C8: when the input token is the native-currency sentinel (the zero
address) the allowance guard is never invoked — no allowance read, no
approval — and, given a viable route, the flow proceeds to the swap
submission. -/
theorem native_tokenIn_skips_allowance (routerAddress owner : ℕ)
    (ro : RouteOutput) (al : ℤ) :
    (mainTrace routerAddress zeroAddress owner ro al).countP isAllowanceRead = 0 ∧
    (mainTrace routerAddress zeroAddress owner ro al).countP isApprovalSend = 0 ∧
    (ro.output ≠ 0 →
      Action.sendUserOperation [swapCall routerAddress ro] ∈
        mainTrace routerAddress zeroAddress owner ro al) := by
  have hz : ¬ zeroAddress ≠ zeroAddress := fun hh => hh rfl
  by_cases h : ro.output = 0
  · have ht : mainTrace routerAddress zeroAddress owner ro al =
        [Action.getAllPools, Action.findBestPath, Action.log ("No route found"),
         Action.exitProcess 0] := by
      unfold mainTrace
      rw [if_pos h]
    rw [ht]
    exact ⟨by decide, by decide, fun hc => absurd h hc⟩
  · have ht : mainTrace routerAddress zeroAddress owner ro al =
        [Action.getAllPools, Action.findBestPath, Action.setupSmartAccount,
         Action.log ("smart wallet address:"),
         Action.signUserOperation,
         Action.sendUserOperation [swapCall routerAddress ro],
         Action.waitForUserOperationReceipt,
         Action.log ("op tx hash:"), Action.exitProcess 0] := by
      unfold mainTrace
      rw [if_neg h, if_neg hz]
      rfl
    rw [ht]
    refine ⟨?_, ?_, fun _ => ?_⟩
    · simp [List.countP_cons, isAllowanceRead, swapCall]
    · simp [List.countP_cons, isApprovalSend, swapCall]
    · simp

/-- Witness for `native_tokenIn_skips_allowance` on the concrete two-hop
route. -/
theorem native_tokenIn_skips_allowance_witness :
    (mainTrace 1 zeroAddress 3 roTwoHop 0).countP isAllowanceRead = 0 ∧
    (mainTrace 1 zeroAddress 3 roTwoHop 0).countP isApprovalSend = 0 ∧
    (roTwoHop.output ≠ 0 →
      Action.sendUserOperation [swapCall 1 roTwoHop] ∈
        mainTrace 1 zeroAddress 3 roTwoHop 0) :=
  native_tokenIn_skips_allowance 1 3 roTwoHop 0

/-- C9 (amended): the fee override is applied per component and only to a
TRUTHY (nonzero) component — an available estimate with a zero component
has that field omitted, not set to zero — and the escalated value is
`15 * fee / 10`; moreover the shipped source hardcodes the estimate absent
(line 144), so the built swap user operation always omits both fields. -/
theorem fee_escalation_policy (uf : Option GasFees) (f : GasFees)
    (routerAddress : ℕ) (ro : RouteOutput) :
    (uf = none → opMaxPriorityFeePerGas uf = none ∧ opMaxFeePerGas uf = none) ∧
    (uf = some f →
      (f.maxPriorityFeePerGas ≠ 0 →
        opMaxPriorityFeePerGas uf =
          some (gasIncreaser * f.maxPriorityFeePerGas / 10)) ∧
      (f.maxPriorityFeePerGas = 0 → opMaxPriorityFeePerGas uf = none) ∧
      (f.maxFeePerGas ≠ 0 →
        opMaxFeePerGas uf = some (gasIncreaser * f.maxFeePerGas / 10)) ∧
      (f.maxFeePerGas = 0 → opMaxFeePerGas uf = none)) ∧
    gasIncreaser = 15 ∧
    (swapUserOperation routerAddress ro).maxPriorityFeePerGas = none ∧
    (swapUserOperation routerAddress ro).maxFeePerGas = none := by
  refine ⟨?_, ?_, rfl, rfl, rfl⟩
  · rintro rfl
    exact ⟨rfl, rfl⟩
  · rintro rfl
    refine ⟨?_, ?_, ?_, ?_⟩ <;> intro hf <;>
      simp [opMaxPriorityFeePerGas, opMaxFeePerGas, hf]

/-- Witness for `fee_escalation_policy` at the estimate `⟨4, 6⟩`. -/
theorem fee_escalation_policy_witness :
    (some (GasFees.mk 4 6) = none →
      opMaxPriorityFeePerGas (some (GasFees.mk 4 6)) = none ∧
      opMaxFeePerGas (some (GasFees.mk 4 6)) = none) ∧
    (some (GasFees.mk 4 6) = some (GasFees.mk 4 6) →
      ((GasFees.mk 4 6).maxPriorityFeePerGas ≠ 0 →
        opMaxPriorityFeePerGas (some (GasFees.mk 4 6)) =
          some (gasIncreaser * (GasFees.mk 4 6).maxPriorityFeePerGas / 10)) ∧
      ((GasFees.mk 4 6).maxPriorityFeePerGas = 0 →
        opMaxPriorityFeePerGas (some (GasFees.mk 4 6)) = none) ∧
      ((GasFees.mk 4 6).maxFeePerGas ≠ 0 →
        opMaxFeePerGas (some (GasFees.mk 4 6)) =
          some (gasIncreaser * (GasFees.mk 4 6).maxFeePerGas / 10)) ∧
      ((GasFees.mk 4 6).maxFeePerGas = 0 →
        opMaxFeePerGas (some (GasFees.mk 4 6)) = none)) ∧
    gasIncreaser = 15 ∧
    (swapUserOperation 1 roTwoHop).maxPriorityFeePerGas = none ∧
    (swapUserOperation 1 roTwoHop).maxFeePerGas = none :=
  fee_escalation_policy (some (GasFees.mk 4 6)) (GasFees.mk 4 6) 1 roTwoHop

/-- C9 counterexample: the estimate `⟨0, 5⟩` is available, yet the
priority-fee field is omitted (`none`) rather than set to
`15 * 0 / 10 = 0`, while the max-fee field is escalated to `7`; so "both
components equal the estimate times 15/10 whenever an estimate is
available" fails. -/
theorem fee_omitted_on_zero_component_cex :
    opMaxPriorityFeePerGas (some (GasFees.mk 0 5)) = none ∧
    opMaxPriorityFeePerGas (some (GasFees.mk 0 5)) ≠
      some (gasIncreaser * (GasFees.mk 0 5).maxPriorityFeePerGas / 10) ∧
    opMaxFeePerGas (some (GasFees.mk 0 5)) =
      some (gasIncreaser * (GasFees.mk 0 5).maxFeePerGas / 10) ∧
    opMaxFeePerGas (some (GasFees.mk 0 5)) = some 7 := by
  refine ⟨rfl, ?_, rfl, rfl⟩
  decide

/-- C10 (amended): startup performs no validation at all — it always
succeeds, forwarding the raw (possibly absent) environment lookups — and
the orchestrator's first action is route resolution regardless of the
configuration. -/
theorem startup_reads_env_unchecked (env : String → Option String)
    (routerAddress tokenIn owner : ℕ) (ro : RouteOutput) (al : ℤ) :
    startup env = Except.ok (loadConfig env) ∧
    (loadConfig env).API = env ("KURU_API") ∧
    (loadConfig env).routerAddress = env ("KURU_ROUTER") ∧
    (loadConfig env).rpcUrl = env ("RPC_URL") ∧
    (loadConfig env).bundlerUrl = env ("BUNDLER_URL") ∧
    (loadConfig env).privateKey = env ("PRIVATE_KEY") ∧
    (mainTrace routerAddress tokenIn owner ro al).head? = some Action.getAllPools :=
  ⟨rfl, rfl, rfl, rfl, rfl, rfl, rfl⟩

/-- C10 counterexample: with EVERY required environment variable missing,
startup still succeeds (no fatal configuration error), and the flow still
begins with route resolution — partial execution of the swap flow instead
of a startup failure. -/
theorem startup_accepts_empty_env_cex :
    startup (fun _ => none) =
      Except.ok { API := none, routerAddress := none, rpcUrl := none,
                  bundlerUrl := none, privateKey := none } ∧
    (mainTrace 0 USDC 0 roTwoHop 0).take 2 =
      [Action.getAllPools, Action.findBestPath] :=
  ⟨rfl, rfl⟩

end KuruSwap
